import Mathlib

/-!
# MediaRemote.h: the declared interface

`Sources/CIMediaRemote/include/MediaRemote.h` is a C header with no function
bodies.  What it fixes is a symbol table: `extern CFStringRef` constants, the
enumeration `MRCommand` with explicit integer values, three block typedefs and
seven function prototypes.  The embedding below records those declarations as
data, in the order the header lists them, and the theorems are statements
about that data.
-/

namespace MediaRemote

/-! ## The command enumeration (header lines 74-93) -/

/-- The enumerators of the anonymous `enum` typedef'd as `MRCommand`, in the
order the header declares them. -/
inductive MRCommand where
  | kMRPlay
  | kMRPause
  | kMRTogglePlayPause
  | kMRStop
  | kMRNextTrack
  | kMRPreviousTrack
  | kMRToggleShuffle
  | kMRToggleRepeat
  | kMRStartForwardSeek
  | kMREndForwardSeek
  | kMRStartBackwardSeek
  | kMREndBackwardSeek
  | kMRGoBackFifteenSeconds
  | kMRSkipFifteenSeconds
  | kMRLikeTrack
  | kMRBanTrack
  | kMRAddTrackToWishList
  | kMRRemoveTrackFromWishList
  deriving DecidableEq, Repr, Fintype

namespace MRCommand

/-- The integer constant the header assigns to each enumerator
(`kMRPlay = 0`, ..., `kMRLikeTrack = 0x6A`, ...).  A C enumeration constant
has type `int`, hence `Int`. -/
def code : MRCommand → Int
  | kMRPlay => 0
  | kMRPause => 1
  | kMRTogglePlayPause => 2
  | kMRStop => 3
  | kMRNextTrack => 4
  | kMRPreviousTrack => 5
  | kMRToggleShuffle => 6
  | kMRToggleRepeat => 7
  | kMRStartForwardSeek => 8
  | kMREndForwardSeek => 9
  | kMRStartBackwardSeek => 10
  | kMREndBackwardSeek => 11
  | kMRGoBackFifteenSeconds => 12
  | kMRSkipFifteenSeconds => 13
  | kMRLikeTrack => 0x6A
  | kMRBanTrack => 0x6B
  | kMRAddTrackToWishList => 0x6C
  | kMRRemoveTrackFromWishList => 0x6D

/-- The enumerators as a list, in declaration order. -/
def declared : List MRCommand :=
  [ kMRPlay, kMRPause, kMRTogglePlayPause, kMRStop, kMRNextTrack,
    kMRPreviousTrack, kMRToggleShuffle, kMRToggleRepeat, kMRStartForwardSeek,
    kMREndForwardSeek, kMRStartBackwardSeek, kMREndBackwardSeek,
    kMRGoBackFifteenSeconds, kMRSkipFifteenSeconds, kMRLikeTrack, kMRBanTrack,
    kMRAddTrackToWishList, kMRRemoveTrackFromWishList ]

/-- Decoding an integer received across the interface: the enumerator with
that value, when there is one. -/
def ofCode (n : Int) : Option MRCommand :=
  declared.find? (fun c => c.code == n)

end MRCommand

/-! ## Extern string constants (header lines 19-71) -/

/-- The `extern CFStringRef` constants declared under
`#pragma mark - Notifications` (lines 20-25), in order. -/
def notificationConstants : List String :=
  [ "kMRMediaRemoteNowPlayingInfoDidChangeNotification",
    "kMRMediaRemoteNowPlayingPlaybackQueueDidChangeNotification",
    "kMRMediaRemotePickableRoutesDidChangeNotification",
    "kMRMediaRemoteNowPlayingApplicationDidChangeNotification",
    "kMRMediaRemoteNowPlayingApplicationIsPlayingDidChangeNotification",
    "kMRMediaRemoteRouteStatusDidChangeNotification" ]

/-- The `extern CFStringRef` constants declared under `#pragma mark - Keys`
(lines 28-71), in order. -/
def keyConstants : List String :=
  [ "kMRMediaRemoteNowPlayingApplicationPIDUserInfoKey",
    "kMRMediaRemoteNowPlayingApplicationIsPlayingUserInfoKey",
    "kMRMediaRemoteNowPlayingInfoAlbum",
    "kMRMediaRemoteNowPlayingInfoArtist",
    "kMRMediaRemoteNowPlayingInfoArtworkData",
    "kMRMediaRemoteNowPlayingInfoArtworkMIMEType",
    "kMRMediaRemoteNowPlayingInfoChapterNumber",
    "kMRMediaRemoteNowPlayingInfoComposer",
    "kMRMediaRemoteNowPlayingInfoDuration",
    "kMRMediaRemoteNowPlayingInfoElapsedTime",
    "kMRMediaRemoteNowPlayingInfoGenre",
    "kMRMediaRemoteNowPlayingInfoIsAdvertisement",
    "kMRMediaRemoteNowPlayingInfoIsBanned",
    "kMRMediaRemoteNowPlayingInfoIsInWishList",
    "kMRMediaRemoteNowPlayingInfoIsLiked",
    "kMRMediaRemoteNowPlayingInfoIsMusicApp",
    "kMRMediaRemoteNowPlayingInfoMediaType",
    "kMRMediaRemoteNowPlayingInfoPlaybackRate",
    "kMRMediaRemoteNowPlayingInfoProhibitsSkip",
    "kMRMediaRemoteNowPlayingInfoQueueIndex",
    "kMRMediaRemoteNowPlayingInfoRadioStationIdentifier",
    "kMRMediaRemoteNowPlayingInfoRepeatMode",
    "kMRMediaRemoteNowPlayingInfoShuffleMode",
    "kMRMediaRemoteNowPlayingInfoStartTime",
    "kMRMediaRemoteNowPlayingInfoSupportsFastForward15Seconds",
    "kMRMediaRemoteNowPlayingInfoSupportsIsBanned",
    "kMRMediaRemoteNowPlayingInfoSupportsIsLiked",
    "kMRMediaRemoteNowPlayingInfoSupportsRewind15Seconds",
    "kMRMediaRemoteNowPlayingInfoTimestamp",
    "kMRMediaRemoteNowPlayingInfoTitle",
    "kMRMediaRemoteNowPlayingInfoTotalChapterCount",
    "kMRMediaRemoteNowPlayingInfoTotalDiscCount",
    "kMRMediaRemoteNowPlayingInfoTotalQueueCount",
    "kMRMediaRemoteNowPlayingInfoTotalTrackCount",
    "kMRMediaRemoteNowPlayingInfoTrackNumber",
    "kMRMediaRemoteNowPlayingInfoUniqueIdentifier",
    "kMRMediaRemoteNowPlayingInfoRadioStationHash",
    "kMRMediaRemoteOptionMediaType",
    "kMRMediaRemoteOptionSourceID",
    "kMRMediaRemoteOptionTrackID",
    "kMRMediaRemoteOptionStationID",
    "kMRMediaRemoteOptionStationHash",
    "kMRMediaRemoteRouteDescriptionUserInfoKey",
    "kMRMediaRemoteRouteStatusUserInfoKey" ]

/-- Every `extern CFStringRef` constant of the header, in order. -/
def externConstants : List String :=
  notificationConstants ++ keyConstants

/-- Whether an identifier ends in the word `Notification`. -/
def endsInNotification (ident : String) : Bool :=
  "Notification".toList.isSuffixOf ident.toList

/-! ## Types, block typedefs and function prototypes (header lines 95-106) -/

/-- The C types that occur in the header's declarations.  A parameter whose
type is one of the block typedefs carries the typedef's name. -/
inductive CType where
  | void
  | Boolean
  | int
  | double
  | id
  | CFStringRef
  | CFDictionaryRef
  | dispatch_queue_t
  | MRCommand
  | block (typedefName : String)
  deriving DecidableEq, Repr

/-- One declared parameter: its type and its name. -/
structure Param where
  type : CType
  name : String
  deriving DecidableEq, Repr

/-- A function prototype: return type, function name, parameter list. -/
structure Prototype where
  ret : CType
  name : String
  params : List Param
  deriving DecidableEq, Repr

/-- A block typedef `typedef ret (^name)(params)`. -/
structure BlockTypedef where
  ret : CType
  name : String
  params : List Param
  deriving DecidableEq, Repr

/-- The three completion-block typedefs (lines 100-102), in order. -/
def blockTypedefs : List BlockTypedef :=
  [ ⟨.void, "MRMediaRemoteGetNowPlayingInfoCompletion",
      [⟨.CFDictionaryRef, "information"⟩]⟩,
    ⟨.void, "MRMediaRemoteGetNowPlayingApplicationPIDCompletion",
      [⟨.int, "PID"⟩]⟩,
    ⟨.void, "MRMediaRemoteGetNowPlayingApplicationIsPlayingCompletion",
      [⟨.Boolean, "isPlaying"⟩]⟩ ]

/-- The function prototypes of the header (lines 95-98 and 104-106), in
order.  `MRMediaRemoteUnregisterForNowPlayingNotifications()` is written with
an empty parameter list. -/
def prototypes : List Prototype :=
  [ ⟨.Boolean, "MRMediaRemoteSendCommand",
      [⟨.MRCommand, "command"⟩, ⟨.id, "userInfo"⟩]⟩,
    ⟨.void, "MRMediaRemoteSetElapsedTime",
      [⟨.double, "elapsedTime"⟩]⟩,
    ⟨.void, "MRMediaRemoteRegisterForNowPlayingNotifications",
      [⟨.dispatch_queue_t, "queue"⟩]⟩,
    ⟨.void, "MRMediaRemoteUnregisterForNowPlayingNotifications",
      []⟩,
    ⟨.void, "MRMediaRemoteGetNowPlayingApplicationPID",
      [⟨.dispatch_queue_t, "queue"⟩,
       ⟨.block "MRMediaRemoteGetNowPlayingApplicationPIDCompletion", "completion"⟩]⟩,
    ⟨.void, "MRMediaRemoteGetNowPlayingInfo",
      [⟨.dispatch_queue_t, "queue"⟩,
       ⟨.block "MRMediaRemoteGetNowPlayingInfoCompletion", "completion"⟩]⟩,
    ⟨.void, "MRMediaRemoteGetNowPlayingApplicationIsPlaying",
      [⟨.dispatch_queue_t, "queue"⟩,
       ⟨.block "MRMediaRemoteGetNowPlayingApplicationIsPlayingCompletion", "completion"⟩]⟩ ]

/-- The names of the declared functions, in order. -/
def prototypeNames : List String :=
  prototypes.map Prototype.name

/-- The prototype declared under a given function name. -/
def findPrototype (fn : String) : Option Prototype :=
  prototypes.find? (fun p => p.name == fn)

/-- The block typedef declared under a given name. -/
def findBlockTypedef (tn : String) : Option BlockTypedef :=
  blockTypedefs.find? (fun b => b.name == tn)

/-- The parameter types of a prototype, in order. -/
def Prototype.paramTypes (p : Prototype) : List CType :=
  p.params.map Param.type

/-- The parameter types of a block typedef, in order. -/
def BlockTypedef.paramTypes (b : BlockTypedef) : List CType :=
  b.params.map Param.type

/-- Whether a prototype has a parameter of block type. -/
def Prototype.hasBlockParam (p : Prototype) : Bool :=
  p.params.any (fun q => match q.type with
    | .block _ => true
    | _ => false)

/-- The completion block of a prototype of the shape `f(queue, completion)`:
the typedef its second parameter names, provided the prototype has exactly two
parameters and the first is a `dispatch_queue_t`. -/
def Prototype.completion (p : Prototype) : Option BlockTypedef :=
  match p.params with
  | [q, c] =>
    match q.type, c.type with
    | .dispatch_queue_t, .block tn => findBlockTypedef tn
    | _, _ => none
  | _ => none

/-! ## The specification's reading of the interface -/

/-- The four roles the specification's overview sorts the functions into. -/
inductive Role where
  | commandSend
  | setElapsedTime
  | notificationRegistration
  | asyncGetter
  deriving DecidableEq, Repr, Fintype

/-- The specification's assignment of function names to roles: one
command-send function, one set-elapsed-time function, the register/unregister
pair, and the three asynchronous getters. -/
def specRoleFunctions : Role → List String
  | .commandSend => ["MRMediaRemoteSendCommand"]
  | .setElapsedTime => ["MRMediaRemoteSetElapsedTime"]
  | .notificationRegistration =>
    [ "MRMediaRemoteRegisterForNowPlayingNotifications",
      "MRMediaRemoteUnregisterForNowPlayingNotifications" ]
  | .asyncGetter =>
    [ "MRMediaRemoteGetNowPlayingInfo",
      "MRMediaRemoteGetNowPlayingApplicationPID",
      "MRMediaRemoteGetNowPlayingApplicationIsPlaying" ]

/-- The six kinds of change the specification says the register function
covers, in the order it lists them. -/
inductive SpecChangeKind where
  | NowPlayingInfo
  | NowPlayingPlaybackQueue
  | PickableRoutes
  | NowPlayingApplication
  | NowPlayingApplicationIsPlaying
  | RouteStatus
  deriving DecidableEq, Repr, Fintype

namespace SpecChangeKind

/-- The change kinds as a list, in the specification's order. -/
def all : List SpecChangeKind :=
  [ NowPlayingInfo, NowPlayingPlaybackQueue, PickableRoutes,
    NowPlayingApplication, NowPlayingApplicationIsPlaying, RouteStatus ]

/-- The camel-case word for a change kind. -/
def stem : SpecChangeKind → String
  | NowPlayingInfo => "NowPlayingInfo"
  | NowPlayingPlaybackQueue => "NowPlayingPlaybackQueue"
  | PickableRoutes => "PickableRoutes"
  | NowPlayingApplication => "NowPlayingApplication"
  | NowPlayingApplicationIsPlaying => "NowPlayingApplicationIsPlaying"
  | RouteStatus => "RouteStatus"

/-- The notification constant announcing a change of the given kind:
`kMRMediaRemote`, the kind, `DidChangeNotification`. -/
def notificationName (k : SpecChangeKind) : String :=
  "kMRMediaRemote" ++ k.stem ++ "DidChangeNotification"

end SpecChangeKind

end MediaRemote

/-! ## Theorems -/

namespace MediaRemote

/-- Claim C1.  The command enumeration has exactly 18 values: the type
`MRCommand` is finite of cardinality 18, the declaration-order list has 18
entries without repetition and misses no enumerator, and play, pause,
next-track, like-track and ban-track are among them. -/
theorem MRCommand_has_eighteen_values :
    Fintype.card MRCommand = 18 ∧
    MRCommand.declared.length = 18 ∧
    MRCommand.declared.Nodup ∧
    (∀ c : MRCommand, c ∈ MRCommand.declared) ∧
    MRCommand.kMRPlay ∈ MRCommand.declared ∧
    MRCommand.kMRPause ∈ MRCommand.declared ∧
    MRCommand.kMRNextTrack ∈ MRCommand.declared ∧
    MRCommand.kMRLikeTrack ∈ MRCommand.declared ∧
    MRCommand.kMRBanTrack ∈ MRCommand.declared := by
  decide

/-- Claim C2, as stated, fails: the list of function prototypes declared in
the header does not have length 5. -/
theorem prototypes_length_ne_five : prototypes.length ≠ 5 := by
  decide

/-- Claim C2, amended.  The header declares exactly seven functions: the
list of function prototypes has length 7, and no function name is declared
twice. -/
theorem prototypes_length_eq_seven :
    prototypes.length = 7 ∧ prototypeNames.Nodup := by
  decide

/-- Claim C3.  The declared prototypes split by role into one command-send
function, one set-elapsed-time function, the two notification
register/unregister functions and the three asynchronous getters; every
function the roles name is declared, and every declared function lies in
exactly one role. -/
theorem prototypes_partition_by_role :
    (prototypes.filter (fun p => p.name ∈ specRoleFunctions .commandSend)).map Prototype.name
      = ["MRMediaRemoteSendCommand"] ∧
    (prototypes.filter (fun p => p.name ∈ specRoleFunctions .setElapsedTime)).map Prototype.name
      = ["MRMediaRemoteSetElapsedTime"] ∧
    (prototypes.filter
        (fun p => p.name ∈ specRoleFunctions .notificationRegistration)).map Prototype.name
      = [ "MRMediaRemoteRegisterForNowPlayingNotifications",
          "MRMediaRemoteUnregisterForNowPlayingNotifications" ] ∧
    (prototypes.filter (fun p => p.name ∈ specRoleFunctions .asyncGetter)).map Prototype.name
      = [ "MRMediaRemoteGetNowPlayingApplicationPID",
          "MRMediaRemoteGetNowPlayingInfo",
          "MRMediaRemoteGetNowPlayingApplicationIsPlaying" ] ∧
    (∀ r : Role, ∀ fn ∈ specRoleFunctions r, fn ∈ prototypeNames) ∧
    (∀ p ∈ prototypes, ∃ r : Role, p.name ∈ specRoleFunctions r ∧
      ∀ r2 : Role, p.name ∈ specRoleFunctions r2 → r2 = r) ∧
    prototypeNames.Nodup := by
  decide

/-- Claim C4.  `MRMediaRemoteSendCommand` is the only declared function whose
return type is not `void`, and its return type is `Boolean`; the other six
are declared `void`, so every declared return type is `void` or `Boolean`. -/
theorem only_send_command_returns_a_value :
    (∀ p ∈ prototypes, p.ret ≠ CType.void ↔ p.name = "MRMediaRemoteSendCommand") ∧
    (findPrototype "MRMediaRemoteSendCommand").map Prototype.ret = some CType.Boolean ∧
    (∀ fn ∈ [ "MRMediaRemoteSetElapsedTime",
              "MRMediaRemoteRegisterForNowPlayingNotifications",
              "MRMediaRemoteUnregisterForNowPlayingNotifications",
              "MRMediaRemoteGetNowPlayingInfo",
              "MRMediaRemoteGetNowPlayingApplicationPID",
              "MRMediaRemoteGetNowPlayingApplicationIsPlaying" ],
      (findPrototype fn).map Prototype.ret = some CType.void) ∧
    (∀ p ∈ prototypes, p.ret = CType.void ∨ p.ret = CType.Boolean) := by
  decide

/-- Claim C5.  Each of the three getters takes exactly two parameters, a
`dispatch_queue_t` first and its completion block second; each completion
block type returns `void` and takes exactly one argument: a `CFDictionaryRef`
for the now-playing info, an `int` for the application PID, a `Boolean` for
the is-playing flag.  The getters are exactly the prototypes with a block
parameter. -/
theorem getters_take_queue_and_completion :
    (findPrototype "MRMediaRemoteGetNowPlayingInfo").map Prototype.paramTypes
      = some [.dispatch_queue_t, .block "MRMediaRemoteGetNowPlayingInfoCompletion"] ∧
    (findPrototype "MRMediaRemoteGetNowPlayingApplicationPID").map Prototype.paramTypes
      = some [.dispatch_queue_t, .block "MRMediaRemoteGetNowPlayingApplicationPIDCompletion"] ∧
    (findPrototype "MRMediaRemoteGetNowPlayingApplicationIsPlaying").map Prototype.paramTypes
      = some [ .dispatch_queue_t,
               .block "MRMediaRemoteGetNowPlayingApplicationIsPlayingCompletion" ] ∧
    ((findPrototype "MRMediaRemoteGetNowPlayingInfo").bind Prototype.completion).map
        (fun b => (b.ret, b.paramTypes))
      = some (CType.void, [CType.CFDictionaryRef]) ∧
    ((findPrototype "MRMediaRemoteGetNowPlayingApplicationPID").bind Prototype.completion).map
        (fun b => (b.ret, b.paramTypes))
      = some (CType.void, [CType.int]) ∧
    ((findPrototype "MRMediaRemoteGetNowPlayingApplicationIsPlaying").bind
        Prototype.completion).map (fun b => (b.ret, b.paramTypes))
      = some (CType.void, [CType.Boolean]) ∧
    (∀ b ∈ blockTypedefs, b.ret = CType.void ∧ b.params.length = 1) ∧
    (blockTypedefs.map BlockTypedef.name).Nodup ∧
    (prototypes.filter Prototype.hasBlockParam).map Prototype.name
      = [ "MRMediaRemoteGetNowPlayingApplicationPID",
          "MRMediaRemoteGetNowPlayingInfo",
          "MRMediaRemoteGetNowPlayingApplicationIsPlaying" ] := by
  decide

/-- The notification constants are, in order, the names built from the six
change kinds. -/
theorem notificationName_all :
    SpecChangeKind.all.map SpecChangeKind.notificationName = notificationConstants := by
  decide

/-- Claim C6.  The header declares exactly six notification-name constants,
pairwise distinct, and they correspond one to one to the six change kinds:
distinct kinds have distinct constants, and a name is a notification constant
exactly when it is the constant of some kind.  They are also exactly the
extern constants whose name ends in `Notification`. -/
theorem notification_constants_match_change_kinds :
    notificationConstants.length = 6 ∧
    notificationConstants.Nodup ∧
    Fintype.card SpecChangeKind = 6 ∧
    Function.Injective SpecChangeKind.notificationName ∧
    (∀ s : String, s ∈ notificationConstants ↔
      ∃ k : SpecChangeKind, SpecChangeKind.notificationName k = s) ∧
    externConstants.filter endsInNotification = notificationConstants := by
  refine ⟨by decide, by decide, by decide, by decide, ?_, by decide⟩
  intro s
  rw [← notificationName_all]
  constructor
  · intro h
    obtain ⟨k, _, hk⟩ := List.mem_map.mp h
    exact ⟨k, hk⟩
  · rintro ⟨k, hk⟩
    exact List.mem_map.mpr ⟨k, by cases k <;> decide, hk⟩

/-- Claim C8.  The integer coding of `MRCommand` is injective: two commands
with the same code are the same command. -/
theorem MRCommand_code_injective (c1 c2 : MRCommand)
    (h : c1.code = c2.code) : c1 = c2 := by
  revert c1 c2
  decide

/-- Claim C8 at a concrete pair: the enumerator with code `0x6A` is
`kMRLikeTrack` and no other. -/
theorem MRCommand_code_injective_witness :
    MRCommand.code .kMRLikeTrack = 0x6A ∧
    MRCommand.ofCode 0x6A = some .kMRLikeTrack ∧
    MRCommand.kMRLikeTrack = MRCommand.kMRLikeTrack :=
  ⟨by decide, by decide,
    MRCommand_code_injective .kMRLikeTrack .kMRLikeTrack (by decide)⟩

/-- Claim C9.  An integer is the code of a command exactly when it lies in
0..13 or in 106..109; the first fourteen enumerators in declaration order
(`kMRPlay` to `kMRSkipFifteenSeconds`) have their zero-based position as
code, the last four are `kMRLikeTrack`, `kMRBanTrack`,
`kMRAddTrackToWishList`, `kMRRemoveTrackFromWishList` with codes `0x6A`,
`0x6B`, `0x6C`, `0x6D`, and the codes increase strictly along the declaration
order. -/
theorem MRCommand_code_range :
    (∀ n : Int, (∃ c : MRCommand, c.code = n) ↔
      (0 ≤ n ∧ n ≤ 13) ∨ (106 ≤ n ∧ n ≤ 109)) ∧
    (∀ i < 14, (MRCommand.declared.get? i).map MRCommand.code = some (Int.ofNat i)) ∧
    MRCommand.declared.get? 0 = some .kMRPlay ∧
    MRCommand.declared.get? 13 = some .kMRSkipFifteenSeconds ∧
    MRCommand.declared.drop 14
      = [.kMRLikeTrack, .kMRBanTrack, .kMRAddTrackToWishList, .kMRRemoveTrackFromWishList] ∧
    (MRCommand.declared.drop 14).map MRCommand.code = [0x6A, 0x6B, 0x6C, 0x6D] ∧
    List.Pairwise (fun a b => a < b) (MRCommand.declared.map MRCommand.code) := by
  refine ⟨?_, by decide, by decide, by decide, by decide, by decide, by decide⟩
  intro n
  constructor
  · rintro ⟨c, rfl⟩
    cases c <;> decide
  · rintro (⟨h0, h1⟩ | ⟨h0, h1⟩) <;> interval_cases n <;> decide

end MediaRemote
